import Mathlib

/-!
Shallow embedding of src/bitbucket/api.py (a thin Bitbucket REST API wrapper).

Modelling conventions:
* Python string truthiness is modelled by `truthy` (non-empty string).
* The external transport boundary (urllib's `urlopen(request).read()`, the
  subsequent utf-8 `decode` and the stdlib `json.loads`) is modelled as a
  `Transport : PyRequest -> JVal` function delivering, for each issued
  request, the parsed JSON of the (assumed well-formed) response body.
* Operations are written in explicit state-passing style: every method of the
  Python classes takes `self` and returns its result paired with the state of
  `self` after the call, mirroring the fact that Python methods could mutate
  attributes (none of the source methods do).
* Each operation's list of issued network requests is recorded in
  `CallResult.trace`; raising before any I/O corresponds to an empty trace.
-/

/-- Python truthiness of a string: non-empty strings are truthy
(used by both `all((username, password))` guards in the source). -/
def truthy (s : String) : Bool := !(s == "")

/-- The whitespace characters removed by Python's `str.strip()`
(ASCII subset; the source only ever strips base64 output and timestamps). -/
def pyIsSpace (c : Char) : Bool :=
  c == ' ' || c == '\t' || c == '\n' || c == '\r' || c == '\x0b' || c == '\x0c'

/-- Python's `s.strip()`: remove leading and trailing whitespace. -/
def pystrip (s : String) : String :=
  ⟨((s.data.dropWhile pyIsSpace).reverse.dropWhile pyIsSpace).reverse⟩

/-- Python's `s.split('+')[0]`: the prefix of `s` before the first `'+'`
(the whole string when no `'+'` occurs); used by `to_datetime` (api.py:64). -/
def splitPlusHead (s : String) : String :=
  ⟨s.data.takeWhile (fun c => c != '+')⟩

/-- UTF-8 encoding of a single character, as byte values
(Python's `str.encode("utf_8")`, per character). -/
def utf8Bytes (c : Char) : List Nat :=
  let n := c.toNat
  if n < 128 then [n]
  else if n < 2048 then [192 + n / 64, 128 + n % 64]
  else if n < 65536 then [224 + n / 4096, 128 + n / 64 % 64, 128 + n % 64]
  else [240 + n / 262144, 128 + n / 4096 % 64, 128 + n / 64 % 64, 128 + n % 64]

/-- UTF-8 encoding of a string, as byte values (Python's `str.encode("utf_8")`). -/
def utf8Encode (s : String) : List Nat := s.data.flatMap utf8Bytes

/-- The base64 alphabet character for a 6-bit value. -/
def b64char (n : Nat) : Char :=
  "ABCDEFGHIJKLMNOPQRSTUVWXYZabcdefghijklmnopqrstuvwxyz0123456789+/".data.getD n 'A'

/-- Standard base64 of a byte sequence, three input bytes per four output
characters, with '=' padding (Python's `base64.b64encode`). -/
def b64chunks : List Nat → List Char
  | [] => []
  | [a] => [b64char (a / 4), b64char (a % 4 * 16), '=', '=']
  | [a, b] => [b64char (a / 4), b64char (a % 4 * 16 + b / 16), b64char (b % 16 * 4), '=']
  | a :: b :: c :: rest =>
    b64char (a / 4) :: b64char (a % 4 * 16 + b / 16) ::
      b64char (b % 16 * 4 + c / 64) :: b64char (c % 64) :: b64chunks rest

/-- Python's `base64.b64encode(bytes).decode("utf_8")` as a string. -/
def b64encode (bytes : List Nat) : String := ⟨b64chunks bytes⟩

/-- Uppercase hexadecimal digit. -/
def hexDigit (n : Nat) : Char := "0123456789ABCDEF".data.getD n '0'

/-- Percent-encoding of one byte, as in urllib's quoting. -/
def percentByte (b : Nat) : String := ⟨['%', hexDigit (b / 16), hexDigit (b % 16)]⟩

/-- Bytes urllib's `quote_plus` leaves unquoted with `safe=""`:
ASCII letters, digits, and the marks `_ . - ~`. -/
def urlSafeByte (b : Nat) : Bool :=
  (65 ≤ b && b ≤ 90) || (97 ≤ b && b ≤ 122) || (48 ≤ b && b ≤ 57) ||
    b == 95 || b == 46 || b == 45 || b == 126

/-- urllib's `quote_plus`: utf-8 encode, map space to '+', keep safe bytes,
percent-encode the rest. -/
def quote_plus (s : String) : String :=
  String.join ((utf8Encode s).map (fun b =>
    if b == 32 then "+"
    else if urlSafeByte b then ⟨[Char.ofNat b]⟩
    else percentByte b))

/-- urllib's `urlencode` over an ordered mapping (api.py line 121 passes the
caller's `repo_data` mapping directly). -/
def urlencode (kvs : List (String × String)) : String :=
  String.intercalate "&" (kvs.map (fun kv => quote_plus kv.1 ++ "=" ++ quote_plus kv.2))

/-- Parsed JSON values, as produced by the stdlib `json.loads`. -/
inductive JVal where
  | null : JVal
  | bool (b : Bool) : JVal
  | num (n : Int) : JVal
  | str (s : String) : JVal
  | arr (xs : List JVal) : JVal
  | obj (fields : List (String × JVal)) : JVal

/-- The Python exceptions the wrapper can raise or propagate synchronously. -/
inductive PyError where
  | authenticationRequired (msg : String)
  | exception (msg : String)
  | keyError (key : String)
  | typeError (msg : String)
deriving DecidableEq

/-- A urllib Request value: url, optional form-encoded body, headers, and the
optional `get_method` override installed by `request.get_method = lambda: method`.
When no override is installed, urllib derives the method from the presence of
a body (POST when data is present, GET otherwise). -/
structure PyRequest where
  url : String
  data : Option String
  headers : List (String × String)
  get_method : Option String

/-- The effective HTTP method of a request (urllib's `Request.get_method`). -/
def PyRequest.method (r : PyRequest) : String :=
  match r.get_method with
  | some m => m
  | none => match r.data with
    | some _ => "POST"
    | none => "GET"

/-- The external transport boundary: for each issued request, the parsed JSON
of the response body (urlopen + read + decode + json.loads, all outside the
repository's code). -/
def Transport := PyRequest → JVal

/-- Result of an operation that may perform network I/O: the list of requests
actually issued, and the returned value or raised exception. -/
structure CallResult (α : Type) where
  trace : List PyRequest
  outcome : Except PyError α

/-- Python subscripting `v[k]` on a parsed JSON value (api.py line 139):
KeyError on a missing object key, TypeError on non-object values. -/
def JVal.index (v : JVal) (k : String) : Except PyError JVal :=
  match v with
  | .obj fields =>
    match fields.lookup k with
    | some x => Except.ok x
    | none => Except.error (PyError.keyError k)
  | _ => Except.error (PyError.typeError "value is not subscriptable by string")

/-- api.py line 30. -/
def api_toplevel : String := "https://api.bitbucket.org/"

/-- api.py line 31: the v2.0 API base. -/
def api_base : String := api_toplevel ++ "2.0/"

/-- The BitBucket client (api.py lines 68-78): credential fields and the
verbosity flag, all set once in the constructor. -/
structure BitBucket where
  username : String
  password : String
  oauth_key : String
  oauth_secret : String
  verbose : Bool
deriving DecidableEq

/-- A user handle (api.py lines 130-136): the owning client and the bound
username. Python's None sentinel ("the authenticated caller") is `none`;
it is distinct from the empty string `some ""`. -/
structure User where
  bb : BitBucket
  username : Option String

/-- The object a decorated method is invoked on: either a client itself, or a
delegate object carrying a `bb` reference to its owning client
(the `hasattr(self, 'bb')` test of api.py line 41). -/
inductive AuthSelf where
  | client (bb : BitBucket)
  | handle (u : User)

/-- Credential resolution of the decorator (api.py line 41):
`self.bb.username if hasattr(self, 'bb') else self.username`. -/
def AuthSelf.resolvedUsername : AuthSelf → String
  | .client bb => bb.username
  | .handle u => u.bb.username

/-- Credential resolution of the decorator (api.py line 42):
`self.bb.password if hasattr(self, 'bb') else self.password`. -/
def AuthSelf.resolvedPassword : AuthSelf → String
  | .client bb => bb.password
  | .handle u => u.bb.password

/-- The client whose state a raised guard leaves untouched. -/
def AuthSelf.owner : AuthSelf → BitBucket
  | .client bb => bb
  | .handle u => u.bb

/-- The requires_authentication decorator (api.py lines 38-46): resolve the
credentials from self (or its owning client), raise AuthenticationRequired
naming the wrapped method when either is falsy, otherwise run the method. -/
def requires_authentication {α : Type} (self : AuthSelf) (opName : String)
    (body : Unit → CallResult α × BitBucket) : CallResult α × BitBucket :=
  if truthy self.resolvedUsername && truthy self.resolvedPassword then body ()
  else
    (⟨[], Except.error (PyError.authenticationRequired (opName ++ " requires authentication"))⟩,
     self.owner)

/-- Modelled from the spec: the header output of the external
oauthlib.oauth1 Client(key, client_secret=secret).sign(url) call
(api.py lines 88-89). oauthlib emits a single Authorization header of the
OAuth scheme carrying the consumer key and an HMAC signature derived from the
client secret and the url; the cryptographic signature value itself is
abstracted (no claim depends on it), every other aspect relevant to the
claims — header name, scheme tag, and the inputs it depends on — is kept. -/
def oauth_sign (client_key client_secret url : String) : List (String × String) :=
  [("Authorization",
    "OAuth oauth_consumer_key=\x22" ++ client_key ++
      "\x22, oauth_signature=\x22HMAC-SHA1(" ++ client_secret ++ ", " ++ url ++ ")\x22")]

/-- BitBucket.build_request (api.py lines 80-98). OAuth (both fields truthy)
is checked first: the request is built from the signed headers with no method
override. Otherwise Basic auth (both fields truthy): a single Authorization
header with the stripped base64 of "username:password", and the get_method
override installed. Otherwise a bare Request(url): no data, no headers.
Returns the request together with the client state after the call. -/
def build_request (bb : BitBucket) (url : String) (method : String)
    (data : Option String) : PyRequest × BitBucket :=
  if truthy bb.oauth_key && truthy bb.oauth_secret then
    ({ url := url, data := data,
       headers := oauth_sign bb.oauth_key bb.oauth_secret url,
       get_method := none }, bb)
  else if truthy bb.username && truthy bb.password then
    ({ url := url, data := data,
       headers := [("Authorization",
         "Basic " ++ pystrip (b64encode (utf8Encode (bb.username ++ ":" ++ bb.password))))],
       get_method := some method }, bb)
  else
    ({ url := url, data := none, headers := [], get_method := none }, bb)

/-- BitBucket.load_url (api.py lines 100-107): build the request, issue it,
return the parsed response together with the issued request (for the trace)
and the client state after the call. The verbose prints affect neither. -/
def load_url (bb : BitBucket) (t : Transport) (url : String) (method : String)
    (data : Option String) : (JVal × PyRequest) × BitBucket :=
  ((t (build_request bb url method data).1, (build_request bb url method data).1),
   (build_request bb url method data).2)

/-- BitBucket.user (api.py lines 109-110): a new handle bound to this client. -/
def BitBucket.user (bb : BitBucket) (username : Option String) : User × BitBucket :=
  (⟨bb, username⟩, bb)

/-- BitBucket.emails (api.py lines 112-116): guarded GET of api_base/emails/. -/
def emails (bb : BitBucket) (t : Transport) : CallResult JVal × BitBucket :=
  requires_authentication (AuthSelf.client bb) "emails" (fun _ =>
    (⟨[(load_url bb t (api_base ++ "emails/") "GET" none).1.2],
      Except.ok (load_url bb t (api_base ++ "emails/") "GET" none).1.1⟩,
     (load_url bb t (api_base ++ "emails/") "GET" none).2))

/-- BitBucket.create_repo (api.py lines 118-121): guarded POST of the
url-encoded repo data to api_base/repositories/. -/
def create_repo (bb : BitBucket) (t : Transport) (repo_data : List (String × String)) :
    CallResult JVal × BitBucket :=
  requires_authentication (AuthSelf.client bb) "create_repo" (fun _ =>
    (⟨[(load_url bb t (api_base ++ "repositories/") "POST" (some (urlencode repo_data))).1.2],
      Except.ok (load_url bb t (api_base ++ "repositories/") "POST" (some (urlencode repo_data))).1.1⟩,
     (load_url bb t (api_base ++ "repositories/") "POST" (some (urlencode repo_data))).2))

/-- BitBucket repr (api.py lines 123-127): "<BitBucket API>" with an
" (auth: username)" insert when both username and password are truthy. -/
def reprBB (bb : BitBucket) : String × BitBucket :=
  (("<BitBucket API" ++
      (if truthy bb.username && truthy bb.password
       then " (auth: " ++ bb.username ++ ")" else "") ++ ">"), bb)

/-- The profile url picked by User.get (api.py lines 142-145). -/
def User.profileUrl (u : User) : String :=
  match u.username with
  | none => api_base ++ "user/"
  | some name => api_base ++ "teams/" ++ name

/-- User.get (api.py lines 141-146): GET the profile url, parse the body. -/
def User.get (u : User) (t : Transport) : CallResult JVal × User :=
  (⟨[(load_url u.bb t u.profileUrl "GET" none).1.2],
    Except.ok (load_url u.bb t u.profileUrl "GET" none).1.1⟩,
   { u with bb := (load_url u.bb t u.profileUrl "GET" none).2 })

/-- User.get_repos (api.py lines 148-153): raise Exception("username missing")
on the None sentinel before any I/O, otherwise GET the paginated listing url. -/
def User.get_repos (u : User) (t : Transport) : CallResult JVal × User :=
  match u.username with
  | none => (⟨[], Except.error (PyError.exception "username missing")⟩, u)
  | some name =>
    (⟨[(load_url u.bb t (api_base ++ "repositories/" ++ name ++ "?pagelen=100") "GET" none).1.2],
      Except.ok (load_url u.bb t (api_base ++ "repositories/" ++ name ++ "?pagelen=100") "GET" none).1.1⟩,
     { u with bb := (load_url u.bb t (api_base ++ "repositories/" ++ name ++ "?pagelen=100") "GET" none).2 })

/-- User.repositories (api.py lines 138-139): get_repos()['values'];
subscripting errors propagate after the I/O already performed. -/
def User.repositories (u : User) (t : Transport) : CallResult JVal × User :=
  (⟨(User.get_repos u t).1.trace,
    match (User.get_repos u t).1.outcome with
    | Except.error e => Except.error e
    | Except.ok v =>
      match JVal.index v "values" with
      | Except.ok vs => Except.ok vs
      | Except.error e => Except.error e⟩,
   (User.get_repos u t).2)

/-- Rendering of the optional username by Python's "%s" interpolation. -/
def optStr : Option String → String
  | none => "None"
  | some s => s

/-- User repr (api.py lines 156-157). -/
def reprUser (u : User) : String × User :=
  ("<User: " ++ optStr u.username ++ ">", u)

/-- Does a string start with the given prefix (on the character level). -/
def strStartsWith (s pre : String) : Bool := List.isPrefixOf pre.data s.data

/-- Request carries a header of the Basic authentication scheme. -/
def hasBasicArtifact (r : PyRequest) : Bool :=
  r.headers.any (fun kv => kv.1 == "Authorization" && strStartsWith kv.2 "Basic")

/-- Request carries a header of the OAuth authentication scheme. -/
def hasOAuthArtifact (r : PyRequest) : Bool :=
  r.headers.any (fun kv => kv.1 == "Authorization" && strStartsWith kv.2 "OAuth")

/-- Request carries any Authorization header at all. -/
def hasAuthorizationHeader (r : PyRequest) : Bool :=
  r.headers.any (fun kv => kv.1 == "Authorization")

/-- Gregorian leap year (as in Python's datetime module). -/
def isLeapYear (y : Nat) : Bool := (y % 4 == 0 && y % 100 != 0) || y % 400 == 0

/-- Number of days in a month of the proleptic Gregorian calendar. -/
def daysInMonth (y m : Nat) : Nat :=
  if m == 2 then (if isLeapYear y then 29 else 28)
  else if m == 4 || m == 6 || m == 9 || m == 11 then 30
  else 31

/-- Days before January 1 of the given year, in the proleptic Gregorian
calendar with day 1 = 0001-01-01 (Python's date.toordinal convention). -/
def daysBeforeYear (y : Nat) : Nat :=
  (y - 1) * 365 + (y - 1) / 4 - (y - 1) / 100 + (y - 1) / 400

/-- Days in year y strictly before month m. -/
def daysBeforeMonth (y m : Nat) : Nat :=
  (List.range (m - 1)).foldl (fun acc i => acc + daysInMonth y (i + 1)) 0

/-- Python's date(y, m, d).toordinal(): 0001-01-01 is ordinal 1. -/
def toordinal (y m d : Nat) : Nat := daysBeforeYear y + daysBeforeMonth y m + d

/-- Python's date(y, m, d).weekday(), equal to the tm_wday field filled in by
time.strptime: 0 = Monday .. 6 = Sunday (0001-01-01 is a Monday). -/
def pyWeekday (y m d : Nat) : Nat := (toordinal y m d - 1) % 7

/-- The first seven fields of a time.struct_time: year, month, day, hour,
minute, second, and the computed weekday (exactly the slice taken at
api.py line 65). -/
structure TmStruct where
  tm_year : Nat
  tm_mon : Nat
  tm_mday : Nat
  tm_hour : Nat
  tm_min : Nat
  tm_sec : Nat
  tm_wday : Nat
deriving DecidableEq

/-- The numeric value of a list of decimal digit characters. -/
def digitsVal (cs : List Char) : Nat :=
  cs.foldl (fun a c => a * 10 + (c.toNat - 48)) 0

/-- Consume a run of one to maxLen decimal digits (the strptime numeric
directives %m %d %H %M %S each accept one or two digits). -/
def parseNumField (cs : List Char) (maxLen : Nat) : Option (Nat × List Char) :=
  let ds := cs.takeWhile Char.isDigit
  if decide (1 ≤ ds.length) && decide (ds.length ≤ maxLen) then
    some (digitsVal ds, cs.dropWhile Char.isDigit)
  else none

/-- Structural parse of the fixed strptime format "%Y-%m-%d %H:%M:%S":
a four-digit year, one-or-two-digit numeric fields, literal separators, at
least one whitespace character between date and time (the format's space
compiles to a one-or-more whitespace match), and no unconverted trailing
data. Field range checks are applied afterwards in strptime_fmt. -/
def rawParse (cs : List Char) : Option (Nat × Nat × Nat × Nat × Nat × Nat) :=
  let yds := cs.takeWhile Char.isDigit
  if yds.length == 4 then
    match cs.dropWhile Char.isDigit with
    | '-' :: r2 =>
      match parseNumField r2 2 with
      | some (mo, r3) =>
        match r3 with
        | '-' :: r4 =>
          match parseNumField r4 2 with
          | some (d, r5) =>
            match r5 with
            | c :: r6 =>
              if pyIsSpace c then
                match parseNumField (r6.dropWhile pyIsSpace) 2 with
                | some (h, r8) =>
                  match r8 with
                  | ':' :: r9 =>
                    match parseNumField r9 2 with
                    | some (mi, r10) =>
                      match r10 with
                      | ':' :: r11 =>
                        match parseNumField r11 2 with
                        | some (s, r12) =>
                          if r12.isEmpty then some (digitsVal yds, mo, d, h, mi, s)
                          else none
                        | none => none
                      | _ => none
                    | none => none
                  | _ => none
                | none => none
              else none
            | [] => none
          | none => none
        | _ => none
      | none => none
    | _ => none
  else none

/-- time.strptime(s, "%Y-%m-%d %H:%M:%S") restricted to its first seven
fields. The numeric directives bound month to 1..12, day to 1..31, hour to
0..23, minute to 0..59 and second to 0..61 (leap seconds); strptime then
computes the weekday by constructing a date object, which additionally
requires 1 <= year <= 9999 and the day to exist in the month, raising
ValueError otherwise. -/
def strptime_fmt (s : String) : Except String TmStruct :=
  match rawParse s.data with
  | none => Except.error "ValueError: time data does not match format"
  | some (y, mo, d, h, mi, sec) =>
    if 1 ≤ mo ∧ mo ≤ 12 ∧ 1 ≤ d ∧ d ≤ 31 ∧ h ≤ 23 ∧ mi ≤ 59 ∧ sec ≤ 61 then
      if 1 ≤ y ∧ y ≤ 9999 ∧ d ≤ daysInMonth y mo then
        Except.ok ⟨y, mo, d, h, mi, sec, pyWeekday y mo d⟩
      else Except.error "ValueError: day is out of range for month"
    else Except.error "ValueError: time data does not match format"

/-- A datetime.datetime value: the seven positional constructor fields. -/
structure PyDateTime where
  year : Nat
  month : Nat
  day : Nat
  hour : Nat
  minute : Nat
  second : Nat
  microsecond : Nat
deriving DecidableEq

/-- The datetime.datetime constructor with its argument validation
(year 1..9999, month 1..12, day within the month, hour 0..23, minute 0..59,
second 0..59, microsecond 0..999999). -/
def datetime_mk (y mo d h mi s us : Nat) : Except String PyDateTime :=
  if 1 ≤ y ∧ y ≤ 9999 ∧ 1 ≤ mo ∧ mo ≤ 12 ∧ 1 ≤ d ∧ d ≤ daysInMonth y mo ∧
      h ≤ 23 ∧ mi ≤ 59 ∧ s ≤ 59 ∧ us ≤ 999999 then
    Except.ok ⟨y, mo, d, h, mi, s, us⟩
  else Except.error "ValueError"

/-- to_datetime (api.py lines 61-65): cut at the first '+', strip whitespace,
strptime with the fixed format, and pass the first seven struct fields —
the seventh being tm_wday — positionally to the datetime constructor, so the
weekday lands in the microsecond argument. -/
def to_datetime (timestring : String) : Except String PyDateTime :=
  match strptime_fmt (pystrip (splitPlusHead timestring)) with
  | Except.error e => Except.error e
  | Except.ok tm =>
    datetime_mk tm.tm_year tm.tm_mon tm.tm_mday tm.tm_hour tm.tm_min tm.tm_sec tm.tm_wday

/-! Helper lemmas. -/

/-- Non-empty strings are truthy. -/
theorem truthy_of_ne {s : String} (h : s ≠ "") : truthy s = true := by
  simp [truthy, h]

/-- Empty strings are falsy. -/
theorem truthy_of_eq {s : String} (h : s = "") : truthy s = false := by
  simp [truthy, h]

/-- String concatenation acts as list concatenation on the character data. -/
theorem str_append_data (a b : String) : a ++ b = String.mk (a.data ++ b.data) := by
  cases a; cases b; rfl

/-- takeWhile of a list all of whose elements satisfy the predicate. -/
theorem takeWhile_all_eq {p : Char → Bool} :
    ∀ (l : List Char), l.all p = true → l.takeWhile p = l
  | [], _ => rfl
  | a :: as, h => by
    rw [List.all_cons, Bool.and_eq_true] at h
    rw [List.takeWhile_cons, if_pos h.1, takeWhile_all_eq as h.2]

/-- takeWhile stops exactly at the first failing element. -/
theorem takeWhile_append_stop {p : Char → Bool} :
    ∀ (l : List Char) (c : Char) (r : List Char),
      l.all p = true → p c = false → (l ++ c :: r).takeWhile p = l
  | [], c, r, _, hc => by simp [List.takeWhile_cons, hc]
  | a :: as, c, r, h, hc => by
    rw [List.all_cons, Bool.and_eq_true] at h
    rw [List.cons_append, List.takeWhile_cons, if_pos h.1,
      takeWhile_append_stop as c r h.2 hc]

/-- splitPlusHead leaves a plus-free string unchanged. -/
theorem splitPlusHead_no_plus (s : String) (h : s.data.all (fun c => c != '+') = true) :
    splitPlusHead s = s := by
  unfold splitPlusHead
  rw [takeWhile_all_eq s.data h]

/-- splitPlusHead cuts at the first '+'. -/
theorem splitPlusHead_cut (core tail : String) (h : core.data.all (fun c => c != '+') = true) :
    splitPlusHead (core ++ "+" ++ tail) = core := by
  unfold splitPlusHead
  rw [String.data_append, String.data_append]
  have hplus : "+".data = ['+'] := rfl
  rw [hplus, List.append_assoc, List.singleton_append,
    takeWhile_append_stop core.data '+' tail.data h rfl]

/-- dropWhile is the identity when no element satisfies the predicate. -/
theorem dropWhile_eq_self_of_all {α : Type} (p : α → Bool) (l : List α)
    (h : ∀ a ∈ l, p a = false) : l.dropWhile p = l := by
  cases l with
  | nil => rfl
  | cons a as =>
    rw [List.dropWhile_cons, if_neg]
    simp [h a (List.mem_cons_self a as)]

/-- pystrip is the identity on strings containing no whitespace. -/
theorem pystrip_eq_self (s : String) (h : ∀ c ∈ s.data, pyIsSpace c = false) :
    pystrip s = s := by
  unfold pystrip
  rw [dropWhile_eq_self_of_all pyIsSpace s.data h,
    dropWhile_eq_self_of_all pyIsSpace s.data.reverse
      (fun c hc => h c (List.mem_reverse.mp hc)),
    List.reverse_reverse]

/-- Characters of the base64 alphabet are never whitespace. -/
theorem pyIsSpace_b64char (n : Nat) : pyIsSpace (b64char n) = false := by
  have key : ∀ (l : List Char), l.all (fun c => !pyIsSpace c) = true →
      ∀ (m : Nat), pyIsSpace (l.getD m 'A') = false := by
    intro l
    induction l with
    | nil => intro _ m; rfl
    | cons a as ih =>
      intro h m
      rw [List.all_cons, Bool.and_eq_true] at h
      cases m with
      | zero =>
        simp only [List.getD_cons_zero]
        simpa using h.1
      | succ k =>
        simp only [List.getD_cons_succ]
        exact ih h.2 k
  exact key _ (by decide) n

/-- Base64 output contains no whitespace characters. -/
theorem b64chunks_nonspace : ∀ (bs : List Nat), ∀ c ∈ b64chunks bs, pyIsSpace c = false
  | [] => by simp [b64chunks]
  | [a] => by
    intro c hc
    simp only [b64chunks, List.mem_cons, List.not_mem_nil, or_false] at hc
    rcases hc with rfl | rfl | rfl | rfl <;> first | exact pyIsSpace_b64char _ | rfl
  | [a, b] => by
    intro c hc
    simp only [b64chunks, List.mem_cons, List.not_mem_nil, or_false] at hc
    rcases hc with rfl | rfl | rfl | rfl <;> first | exact pyIsSpace_b64char _ | rfl
  | a :: b :: c :: rest => by
    intro x hx
    simp only [b64chunks, List.mem_cons] at hx
    rcases hx with rfl | rfl | rfl | rfl | hx
    · exact pyIsSpace_b64char _
    · exact pyIsSpace_b64char _
    · exact pyIsSpace_b64char _
    · exact pyIsSpace_b64char _
    · exact b64chunks_nonspace rest x hx

/-- Stripping base64 output is a no-op (the strip at api.py line 94). -/
theorem pystrip_b64encode (bs : List Nat) : pystrip (b64encode bs) = b64encode bs :=
  pystrip_eq_self (b64encode bs) (b64chunks_nonspace bs)

/-- A string starting with capital B does not start with "OAuth". -/
theorem not_oauth_of_B (bs rest : List Char) :
    List.isPrefixOf ('O' :: bs) ('B' :: rest) = false := rfl

/-- A string starting with capital O does not start with "Basic". -/
theorem not_basic_of_O (bs rest : List Char) :
    List.isPrefixOf ('B' :: bs) ('O' :: rest) = false := rfl

/-- The OAuth-signed header list contains no Basic-scheme artifact. -/
theorem oauth_headers_no_basic (k sec url : String) :
    (oauth_sign k sec url).any
      (fun kv => kv.1 == "Authorization" && strStartsWith kv.2 "Basic") = false := by
  simp only [oauth_sign, List.any_cons, List.any_nil, Bool.or_false]
  have hv : strStartsWith
      ("OAuth oauth_consumer_key=\x22" ++ k ++
        "\x22, oauth_signature=\x22HMAC-SHA1(" ++ sec ++ ", " ++ url ++ ")\x22") "Basic" = false := by
    unfold strStartsWith
    rw [str_append_data, str_append_data, str_append_data, str_append_data, str_append_data]
    exact not_basic_of_O _ _
  rw [hv, Bool.and_false]

/-- The OAuth-signed header list contains an OAuth-scheme artifact. -/
theorem oauth_headers_is_oauth (k sec url : String) :
    (oauth_sign k sec url).any
      (fun kv => kv.1 == "Authorization" && strStartsWith kv.2 "OAuth") = true := by
  simp only [oauth_sign, List.any_cons, List.any_nil, Bool.or_false]
  have hv : strStartsWith
      ("OAuth oauth_consumer_key=\x22" ++ k ++
        "\x22, oauth_signature=\x22HMAC-SHA1(" ++ sec ++ ", " ++ url ++ ")\x22") "OAuth" = true := by
    unfold strStartsWith
    rw [str_append_data, str_append_data, str_append_data, str_append_data, str_append_data]
    rfl
  rw [hv]
  rfl

/-- build_request never changes the client state. -/
theorem build_request_state (bb : BitBucket) (url method : String) (data : Option String) :
    (build_request bb url method data).2 = bb := by
  unfold build_request
  split
  · rfl
  · split <;> rfl

/-- Every branch of build_request keeps the given url. -/
theorem build_request_url (bb : BitBucket) (url method : String) (data : Option String) :
    (build_request bb url method data).1.url = url := by
  unfold build_request
  split
  · rfl
  · split <;> rfl

/-- A body-less build_request with method "GET" always yields an effective
GET, whichever authentication branch is taken. -/
theorem build_request_get (bb : BitBucket) (url : String) :
    (build_request bb url "GET" none).1.method = "GET" := by
  unfold build_request
  split
  · rfl
  · split <;> rfl

/-- get_repos never changes the handle (nor, through it, the client). -/
theorem get_repos_state (u : User) (t : Transport) : (User.get_repos u t).2 = u := by
  unfold User.get_repos
  cases hu : u.username
  · rfl
  · simp [load_url, build_request_state, ← hu]

/-- The Basic header value is a Basic-scheme artifact and not an OAuth one. -/
theorem basic_value_artifacts (x : String) :
    strStartsWith ("Basic " ++ x) "Basic" = true ∧
      strStartsWith ("Basic " ++ x) "OAuth" = false := by
  constructor
  · unfold strStartsWith
    rw [str_append_data]
    rfl
  · unfold strStartsWith
    rw [str_append_data]
    exact not_oauth_of_B _ _

/-- A stub transport used by witnesses: every request gets the same parsed
JSON object back. -/
def stubTransport : Transport := fun _ => JVal.obj [("a", JVal.num 1)]

/-- C1: for the authenticated operations emails and create_repo (and for the
decorator's delegate resolution through an owning client), an empty username
or password — OAuth fields notwithstanding — raises AuthenticationRequired
naming the operation with no request issued; with both non-empty the guard
passes and the operation issues its request and returns the parsed response. -/
theorem C1_auth_guard :
    (∀ (bb : BitBucket) (t : Transport) (rd : List (String × String)),
      bb.username = "" ∨ bb.password = "" →
        emails bb t =
          (⟨[], Except.error
            (PyError.authenticationRequired "emails requires authentication")⟩, bb) ∧
        create_repo bb t rd =
          (⟨[], Except.error
            (PyError.authenticationRequired "create_repo requires authentication")⟩, bb))
    ∧ (∀ (bb : BitBucket) (t : Transport) (rd : List (String × String)),
        bb.username ≠ "" → bb.password ≠ "" →
          (emails bb t).1.trace = [(build_request bb (api_base ++ "emails/") "GET" none).1] ∧
          (emails bb t).1.outcome =
            Except.ok (t (build_request bb (api_base ++ "emails/") "GET" none).1) ∧
          (create_repo bb t rd).1.trace =
            [(build_request bb (api_base ++ "repositories/") "POST" (some (urlencode rd))).1] ∧
          (create_repo bb t rd).1.outcome =
            Except.ok (t (build_request bb (api_base ++ "repositories/") "POST"
              (some (urlencode rd))).1))
    ∧ (∀ (u : User) (opName : String) (body : Unit → CallResult JVal × BitBucket),
        (u.bb.username = "" ∨ u.bb.password = "" →
          requires_authentication (AuthSelf.handle u) opName body =
            (⟨[], Except.error
              (PyError.authenticationRequired (opName ++ " requires authentication"))⟩, u.bb)) ∧
        (u.bb.username ≠ "" → u.bb.password ≠ "" →
          requires_authentication (AuthSelf.handle u) opName body = body ())) := by
  refine ⟨?_, ?_, ?_⟩
  · rintro bb t rd (h | h) <;>
      constructor <;>
      simp [emails, create_repo, requires_authentication, AuthSelf.resolvedUsername,
        AuthSelf.resolvedPassword, AuthSelf.owner, truthy_of_eq h]
  · intro bb t rd h1 h2
    simp [emails, create_repo, requires_authentication, AuthSelf.resolvedUsername,
      AuthSelf.resolvedPassword, truthy_of_ne h1, truthy_of_ne h2, load_url]
  · intro u opName body
    constructor
    · rintro (h | h) <;>
        simp [requires_authentication, AuthSelf.resolvedUsername, AuthSelf.resolvedPassword,
          AuthSelf.owner, truthy_of_eq h]
    · intro h1 h2
      simp [requires_authentication, AuthSelf.resolvedUsername, AuthSelf.resolvedPassword,
        truthy_of_ne h1, truthy_of_ne h2]

/-- C1 witness: concrete instances of all three parts of the guard theorem —
an OAuth-configured client with an empty password is still refused before any
I/O, a basic-credentialed client proceeds, and a delegate with an
empty-username owner is refused. -/
theorem C1_auth_guard_witness :
    emails (BitBucket.mk "alice" "" "k" "s" false) stubTransport =
      (⟨[], Except.error (PyError.authenticationRequired "emails requires authentication")⟩,
       BitBucket.mk "alice" "" "k" "s" false) ∧
    (emails (BitBucket.mk "alice" "secret" "" "" false) stubTransport).1.trace =
      [(build_request (BitBucket.mk "alice" "secret" "" "" false)
          (api_base ++ "emails/") "GET" none).1] ∧
    requires_authentication
        (AuthSelf.handle (User.mk (BitBucket.mk "" "p" "" "" false) (some "x"))) "op"
        (fun _ => (⟨[], Except.ok JVal.null⟩, BitBucket.mk "" "p" "" "" false)) =
      (⟨[], Except.error (PyError.authenticationRequired "op requires authentication")⟩,
       BitBucket.mk "" "p" "" "" false) :=
  ⟨(C1_auth_guard.1 (BitBucket.mk "alice" "" "k" "s" false) stubTransport [] (Or.inr rfl)).1,
   ((C1_auth_guard.2.1 (BitBucket.mk "alice" "secret" "" "" false) stubTransport []
      (by decide) (by decide)).1),
   ((C1_auth_guard.2.2 (User.mk (BitBucket.mk "" "p" "" "" false) (some "x")) "op"
      (fun _ => (⟨[], Except.ok JVal.null⟩, BitBucket.mk "" "p" "" "" false))).1 (Or.inl rfl))⟩

/-- C2 counterexample: a client with non-empty username and password and both
OAuth fields set. build_request takes the OAuth branch first, so the built
request carries no Basic Authorization header — refuting the claim's
"with no further condition on the OAuth fields". -/
theorem C2_basic_auth_counterexample :
    truthy (BitBucket.mk "u" "p" "k" "s" false).username = true ∧
    truthy (BitBucket.mk "u" "p" "k" "s" false).password = true ∧
    hasBasicArtifact (build_request (BitBucket.mk "u" "p" "k" "s" false)
        "https://api.bitbucket.org/2.0/emails/" "GET" none).1 = false := by
  refine ⟨rfl, rfl, ?_⟩
  rfl

/-- C2 as amended: when username and password are both non-empty AND the OAuth
pair is not fully set (OAuth has precedence), build_request on any URL carries
exactly the header Authorization: Basic base64(username:password). -/
theorem C2_basic_auth (bb : BitBucket) (url method : String) (data : Option String)
    (hu : bb.username ≠ "") (hp : bb.password ≠ "")
    (ho : bb.oauth_key = "" ∨ bb.oauth_secret = "") :
    (build_request bb url method data).1.headers =
      [("Authorization",
        "Basic " ++ b64encode (utf8Encode (bb.username ++ ":" ++ bb.password)))] := by
  have hcond : (truthy bb.oauth_key && truthy bb.oauth_secret) = false := by
    rcases ho with h | h <;> simp [truthy_of_eq h]
  simp [build_request, hcond, truthy_of_ne hu, truthy_of_ne hp, pystrip_b64encode]

/-- C2 witness: a concrete basic-credentialed client, with the base64 header
value computed out. -/
theorem C2_basic_auth_witness :
    (build_request (BitBucket.mk "alice" "secret" "" "" false)
        "https://x/" "GET" none).1.headers =
      [("Authorization", "Basic YWxpY2U6c2VjcmV0")] := by
  rw [C2_basic_auth (BitBucket.mk "alice" "secret" "" "" false) "https://x/" "GET" none
    (by decide) (by decide) (Or.inl rfl)]
  rfl

/-- C3: build_request selects exactly one scheme with precedence OAuth over
Basic over unauthenticated; the selected scheme's artifact is present, the
other scheme's is absent, and with no credentials at all the request carries
no header whatsoever. -/
theorem C3_scheme_precedence :
    (∀ (bb : BitBucket) (url method : String) (data : Option String),
      bb.oauth_key ≠ "" → bb.oauth_secret ≠ "" →
        (build_request bb url method data).1.headers =
          oauth_sign bb.oauth_key bb.oauth_secret url ∧
        hasOAuthArtifact (build_request bb url method data).1 = true ∧
        hasBasicArtifact (build_request bb url method data).1 = false)
    ∧ (∀ (bb : BitBucket) (url method : String) (data : Option String),
        (bb.oauth_key = "" ∨ bb.oauth_secret = "") → bb.username ≠ "" → bb.password ≠ "" →
          (build_request bb url method data).1.headers =
            [("Authorization",
              "Basic " ++ pystrip (b64encode (utf8Encode (bb.username ++ ":" ++ bb.password))))] ∧
          hasBasicArtifact (build_request bb url method data).1 = true ∧
          hasOAuthArtifact (build_request bb url method data).1 = false)
    ∧ (∀ (bb : BitBucket) (url method : String) (data : Option String),
        bb.username = "" → bb.password = "" → bb.oauth_key = "" → bb.oauth_secret = "" →
          (build_request bb url method data).1.headers = [] ∧
          hasAuthorizationHeader (build_request bb url method data).1 = false) := by
  refine ⟨?_, ?_, ?_⟩
  · intro bb url method data hk hs
    have hb : build_request bb url method data =
        ({ url := url, data := data,
           headers := oauth_sign bb.oauth_key bb.oauth_secret url,
           get_method := none }, bb) := by
      simp [build_request, truthy_of_ne hk, truthy_of_ne hs]
    rw [hb]
    exact ⟨rfl, oauth_headers_is_oauth _ _ _, oauth_headers_no_basic _ _ _⟩
  · intro bb url method data ho hu hp
    have hcond : (truthy bb.oauth_key && truthy bb.oauth_secret) = false := by
      rcases ho with h | h <;> simp [truthy_of_eq h]
    have hb : build_request bb url method data =
        ({ url := url, data := data,
           headers := [("Authorization",
             "Basic " ++ pystrip (b64encode (utf8Encode (bb.username ++ ":" ++ bb.password))))],
           get_method := some method }, bb) := by
      simp [build_request, hcond, truthy_of_ne hu, truthy_of_ne hp]
    rw [hb]
    refine ⟨rfl, ?_, ?_⟩
    · simp only [hasBasicArtifact, List.any_cons, List.any_nil, Bool.or_false,
        pystrip_b64encode]
      rw [(basic_value_artifacts (b64encode (utf8Encode (bb.username ++ ":" ++ bb.password)))).1]
      rfl
    · simp only [hasOAuthArtifact, List.any_cons, List.any_nil, Bool.or_false,
        pystrip_b64encode]
      rw [(basic_value_artifacts (b64encode (utf8Encode (bb.username ++ ":" ++ bb.password)))).2]
      rw [Bool.and_false]
  · intro bb url method data h1 h2 h3 h4
    have hb : build_request bb url method data =
        ({ url := url, data := none, headers := [], get_method := none }, bb) := by
      simp [build_request, truthy_of_eq h1, truthy_of_eq h3]
    rw [hb]
    exact ⟨rfl, rfl⟩

/-- C3 witness: the three concrete credential configurations. -/
theorem C3_scheme_precedence_witness :
    hasOAuthArtifact (build_request (BitBucket.mk "u" "p" "k" "s" false)
        "https://x/" "GET" none).1 = true ∧
    hasBasicArtifact (build_request (BitBucket.mk "u" "p" "k" "s" false)
        "https://x/" "GET" none).1 = false ∧
    hasBasicArtifact (build_request (BitBucket.mk "u" "p" "" "" false)
        "https://x/" "GET" none).1 = true ∧
    hasOAuthArtifact (build_request (BitBucket.mk "u" "p" "" "" false)
        "https://x/" "GET" none).1 = false ∧
    hasAuthorizationHeader (build_request (BitBucket.mk "" "" "" "" false)
        "https://x/" "GET" none).1 = false :=
  ⟨(C3_scheme_precedence.1 (BitBucket.mk "u" "p" "k" "s" false) "https://x/" "GET" none
      (by decide) (by decide)).2.1,
   (C3_scheme_precedence.1 (BitBucket.mk "u" "p" "k" "s" false) "https://x/" "GET" none
      (by decide) (by decide)).2.2,
   (C3_scheme_precedence.2.1 (BitBucket.mk "u" "p" "" "" false) "https://x/" "GET" none
      (Or.inl rfl) (by decide) (by decide)).2.1,
   (C3_scheme_precedence.2.1 (BitBucket.mk "u" "p" "" "" false) "https://x/" "GET" none
      (Or.inl rfl) (by decide) (by decide)).2.2,
   (C3_scheme_precedence.2.2 (BitBucket.mk "" "" "" "" false) "https://x/" "GET" none
      rfl rfl rfl rfl).2⟩

/-- C4: a handle bound to the None sentinel raises Exception("username
missing") — the spec's MissingUsernameError — from get_repos before any
network request is issued (empty trace, state untouched). -/
theorem C4_missing_username (u : User) (t : Transport) (h : u.username = none) :
    User.get_repos u t =
      (⟨[], Except.error (PyError.exception "username missing")⟩, u) := by
  unfold User.get_repos
  rw [h]

/-- C4 witness. -/
theorem C4_missing_username_witness :
    User.get_repos (User.mk (BitBucket.mk "u" "p" "" "" false) none) stubTransport =
      (⟨[], Except.error (PyError.exception "username missing")⟩,
       User.mk (BitBucket.mk "u" "p" "" "" false) none) :=
  C4_missing_username (User.mk (BitBucket.mk "u" "p" "" "" false) none) stubTransport rfl

/-- The stubbed repository-listing response of the spec's example. -/
def repoStubTransport : Transport := fun _ =>
  JVal.obj [("values", JVal.arr [JVal.obj [("name", JVal.str "r1")]]),
            ("pagelen", JVal.num 100)]

/-- C5: on a handle bound to a real username, get_repos issues exactly one GET
to api_base/repositories/name?pagelen=100 and returns the parsed JSON, and
repositories returns exactly the values field of that result. -/
theorem C5_list_repositories (u : User) (t : Transport) (name : String)
    (h : u.username = some name) :
    User.get_repos u t =
      (⟨[(build_request u.bb (api_base ++ "repositories/" ++ name ++ "?pagelen=100")
            "GET" none).1],
        Except.ok (t (build_request u.bb
          (api_base ++ "repositories/" ++ name ++ "?pagelen=100") "GET" none).1)⟩,
       u) ∧
    (build_request u.bb (api_base ++ "repositories/" ++ name ++ "?pagelen=100")
        "GET" none).1.url = api_base ++ "repositories/" ++ name ++ "?pagelen=100" ∧
    (build_request u.bb (api_base ++ "repositories/" ++ name ++ "?pagelen=100")
        "GET" none).1.method = "GET" ∧
    (∀ (fields : List (String × JVal)) (vs : JVal),
      t (build_request u.bb (api_base ++ "repositories/" ++ name ++ "?pagelen=100")
          "GET" none).1 = JVal.obj fields →
      fields.lookup "values" = some vs →
      User.repositories u t =
        (⟨[(build_request u.bb (api_base ++ "repositories/" ++ name ++ "?pagelen=100")
              "GET" none).1],
          Except.ok vs⟩, u)) := by
  have hrepos : User.get_repos u t =
      (⟨[(build_request u.bb (api_base ++ "repositories/" ++ name ++ "?pagelen=100")
            "GET" none).1],
        Except.ok (t (build_request u.bb
          (api_base ++ "repositories/" ++ name ++ "?pagelen=100") "GET" none).1)⟩,
       u) := by
    unfold User.get_repos
    rw [h]
    simp [load_url, build_request_state, ← h]
  refine ⟨hrepos, build_request_url u.bb _ "GET" none, build_request_get u.bb _, ?_⟩
  intro fields vs hobj hlookup
  unfold User.repositories
  rw [hrepos]
  simp [JVal.index, hobj, hlookup]

/-- C5 witness: the spec's stubbed example — the values array is returned. -/
theorem C5_list_repositories_witness :
    User.repositories (User.mk (BitBucket.mk "" "" "" "" false) (some "alice"))
        repoStubTransport =
      (⟨[(build_request (BitBucket.mk "" "" "" "" false)
            (api_base ++ "repositories/" ++ "alice" ++ "?pagelen=100") "GET" none).1],
        Except.ok (JVal.arr [JVal.obj [("name", JVal.str "r1")]])⟩,
       User.mk (BitBucket.mk "" "" "" "" false) (some "alice")) :=
  (C5_list_repositories (User.mk (BitBucket.mk "" "" "" "" false) (some "alice"))
      repoStubTransport "alice" rfl).2.2.2
    [("values", JVal.arr [JVal.obj [("name", JVal.str "r1")]]), ("pagelen", JVal.num 100)]
    (JVal.arr [JVal.obj [("name", JVal.str "r1")]]) rfl rfl

/-- C6: get (getProfile) issues one GET — to api_base/user/ on the None
sentinel and to api_base/teams/name otherwise — and returns the parsed JSON;
it always returns Except.ok, so it never raises the missing-username error. -/
theorem C6_get_profile (u : User) (t : Transport) :
    User.get u t =
      (⟨[(build_request u.bb u.profileUrl "GET" none).1],
        Except.ok (t (build_request u.bb u.profileUrl "GET" none).1)⟩,
       u) ∧
    (build_request u.bb u.profileUrl "GET" none).1.method = "GET" ∧
    (u.username = none → u.profileUrl = api_base ++ "user/") ∧
    (∀ name : String, u.username = some name →
      u.profileUrl = api_base ++ "teams/" ++ name) := by
  refine ⟨?_, build_request_get u.bb _, ?_, ?_⟩
  · unfold User.get
    simp [load_url, build_request_state]
  · intro h
    unfold User.profileUrl
    rw [h]
  · intro name h
    unfold User.profileUrl
    rw [h]

/-- C6 witness: both the sentinel and a bound username, over the stub. -/
theorem C6_get_profile_witness :
    (User.mk (BitBucket.mk "" "" "" "" false) none).profileUrl = api_base ++ "user/" ∧
    (User.mk (BitBucket.mk "" "" "" "" false) (some "alice")).profileUrl =
      api_base ++ "teams/" ++ "alice" ∧
    (User.get (User.mk (BitBucket.mk "" "" "" "" false) none) stubTransport).1.outcome =
      Except.ok (stubTransport (build_request (BitBucket.mk "" "" "" "" false)
        (User.mk (BitBucket.mk "" "" "" "" false) none).profileUrl "GET" none).1) :=
  ⟨(C6_get_profile (User.mk (BitBucket.mk "" "" "" "" false) none) stubTransport).2.2.1 rfl,
   (C6_get_profile (User.mk (BitBucket.mk "" "" "" "" false) (some "alice"))
      stubTransport).2.2.2 "alice" rfl,
   by rw [(C6_get_profile (User.mk (BitBucket.mk "" "" "" "" false) none) stubTransport).1]⟩

/-- C7: the OAuth branch of build_request installs no get_method override —
the effective method stays at the Request-construction default (POST exactly
when a body is present) whatever the method argument — while the Basic branch
forces the given method. -/
theorem C7_method_override :
    (∀ (bb : BitBucket) (url method : String) (data : Option String),
      bb.oauth_key ≠ "" → bb.oauth_secret ≠ "" →
        (build_request bb url method data).1.get_method = none ∧
        (build_request bb url method data).1.method =
          (match data with | some _ => "POST" | none => "GET"))
    ∧ (∀ (bb : BitBucket) (url method : String) (data : Option String),
        (bb.oauth_key = "" ∨ bb.oauth_secret = "") → bb.username ≠ "" → bb.password ≠ "" →
          (build_request bb url method data).1.get_method = some method ∧
          (build_request bb url method data).1.method = method) := by
  constructor
  · intro bb url method data hk hs
    have hb : build_request bb url method data =
        ({ url := url, data := data,
           headers := oauth_sign bb.oauth_key bb.oauth_secret url,
           get_method := none }, bb) := by
      simp [build_request, truthy_of_ne hk, truthy_of_ne hs]
    rw [hb]
    exact ⟨rfl, rfl⟩
  · intro bb url method data ho hu hp
    have hcond : (truthy bb.oauth_key && truthy bb.oauth_secret) = false := by
      rcases ho with h | h <;> simp [truthy_of_eq h]
    have hb : build_request bb url method data =
        ({ url := url, data := data,
           headers := [("Authorization",
             "Basic " ++ pystrip (b64encode (utf8Encode (bb.username ++ ":" ++ bb.password))))],
           get_method := some method }, bb) := by
      simp [build_request, hcond, truthy_of_ne hu, truthy_of_ne hp]
    rw [hb]
    exact ⟨rfl, rfl⟩

/-- C7 witness: an OAuth client given method "DELETE" and a body still builds
an effective POST with no override; the Basic client gets the override. -/
theorem C7_method_override_witness :
    (build_request (BitBucket.mk "" "" "k" "s" false) "https://x/" "DELETE"
        (some "a=b")).1.get_method = none ∧
    (build_request (BitBucket.mk "" "" "k" "s" false) "https://x/" "DELETE"
        (some "a=b")).1.method = "POST" ∧
    (build_request (BitBucket.mk "u" "p" "" "" false) "https://x/" "DELETE"
        (some "a=b")).1.get_method = some "DELETE" :=
  ⟨(C7_method_override.1 (BitBucket.mk "" "" "k" "s" false) "https://x/" "DELETE"
      (some "a=b") (by decide) (by decide)).1,
   (C7_method_override.1 (BitBucket.mk "" "" "k" "s" false) "https://x/" "DELETE"
      (some "a=b") (by decide) (by decide)).2,
   (C7_method_override.2 (BitBucket.mk "u" "p" "" "" false) "https://x/" "DELETE"
      (some "a=b") (Or.inl rfl) (by decide) (by decide)).1⟩

/-- C8: no operation of the wrapper mutates the client: in the state-passing
embedding, every method returns its receiver exactly as constructed. -/
theorem C8_client_immutable :
    (∀ (bb : BitBucket) (url method : String) (data : Option String),
      (build_request bb url method data).2 = bb)
    ∧ (∀ (bb : BitBucket) (t : Transport) (url method : String) (data : Option String),
        (load_url bb t url method data).2 = bb)
    ∧ (∀ (bb : BitBucket) (name : Option String), (BitBucket.user bb name).2 = bb)
    ∧ (∀ (bb : BitBucket) (t : Transport), (emails bb t).2 = bb)
    ∧ (∀ (bb : BitBucket) (t : Transport) (rd : List (String × String)),
        (create_repo bb t rd).2 = bb)
    ∧ (∀ bb : BitBucket, (reprBB bb).2 = bb)
    ∧ (∀ (u : User) (t : Transport), (User.get u t).2 = u)
    ∧ (∀ (u : User) (t : Transport), (User.get_repos u t).2 = u)
    ∧ (∀ (u : User) (t : Transport), (User.repositories u t).2 = u)
    ∧ (∀ u : User, (reprUser u).2 = u) := by
  refine ⟨build_request_state, ?_, fun _ _ => rfl, ?_, ?_, fun _ => rfl, ?_, get_repos_state,
    ?_, fun _ => rfl⟩
  · intro bb t url method data
    simp [load_url, build_request_state]
  · intro bb t
    unfold emails requires_authentication
    split
    · simp [load_url, build_request_state]
    · rfl
  · intro bb t rd
    unfold create_repo requires_authentication
    split
    · simp [load_url, build_request_state]
    · rfl
  · intro u t
    unfold User.get
    simp [load_url, build_request_state]
  · intro u t
    unfold User.repositories
    simp [get_repos_state]

/-- C9: the repr shows the username only when both username and password are
non-empty, never shows the password, and is invariant under changing a
non-empty password — two clients equal but for non-empty passwords render
identically. -/
theorem C9_repr_password_free :
    (∀ (a b : BitBucket), a.username = b.username →
      a.password ≠ "" → b.password ≠ "" → (reprBB a).1 = (reprBB b).1)
    ∧ (∀ bb : BitBucket, bb.username ≠ "" → bb.password ≠ "" →
        (reprBB bb).1 = "<BitBucket API (auth: " ++ bb.username ++ ")>")
    ∧ (∀ bb : BitBucket, bb.username = "" ∨ bb.password = "" →
        (reprBB bb).1 = "<BitBucket API>") := by
  refine ⟨?_, ?_, ?_⟩
  · intro a b hu hpa hpb
    simp [reprBB, truthy_of_ne hpa, truthy_of_ne hpb, hu]
  · intro bb h1 h2
    simp [reprBB, truthy_of_ne h1, truthy_of_ne h2, str_append_data, List.append_assoc]
  · rintro bb (h | h) <;> simp [reprBB, truthy_of_eq h]

/-- C9 witness: two clients differing only in non-empty passwords render the
same string, which names the username and neither password. -/
theorem C9_repr_password_free_witness :
    (reprBB (BitBucket.mk "alice" "hunter2" "" "" false)).1 =
      (reprBB (BitBucket.mk "alice" "swordfish" "" "" false)).1 ∧
    (reprBB (BitBucket.mk "alice" "hunter2" "" "" false)).1 =
      "<BitBucket API (auth: " ++ "alice" ++ ")>" ∧
    (reprBB (BitBucket.mk "alice" "" "" "" false)).1 = "<BitBucket API>" :=
  ⟨C9_repr_password_free.1 (BitBucket.mk "alice" "hunter2" "" "" false)
      (BitBucket.mk "alice" "swordfish" "" "" false) rfl (by decide) (by decide),
   by
     rw [C9_repr_password_free.2.1 (BitBucket.mk "alice" "hunter2" "" "" false)
       (by decide) (by decide)],
   C9_repr_password_free.2.2 (BitBucket.mk "alice" "" "" "" false) (Or.inr rfl)⟩

/-- Inversion of a successful strptime: the fields satisfy the directive and
calendar bounds, and tm_wday is the weekday of the parsed date. -/
theorem strptime_fmt_ok_inv (s : String) (tm : TmStruct)
    (h : strptime_fmt s = Except.ok tm) :
    1 ≤ tm.tm_year ∧ tm.tm_year ≤ 9999 ∧ 1 ≤ tm.tm_mon ∧ tm.tm_mon ≤ 12 ∧
    1 ≤ tm.tm_mday ∧ tm.tm_mday ≤ daysInMonth tm.tm_year tm.tm_mon ∧
    tm.tm_hour ≤ 23 ∧ tm.tm_min ≤ 59 ∧ tm.tm_sec ≤ 61 ∧
    tm.tm_wday = pyWeekday tm.tm_year tm.tm_mon tm.tm_mday := by
  unfold strptime_fmt at h
  split at h
  · exact absurd h (by simp)
  · rename_i y mo d hr mi sec
    split at h
    · split at h
      · rename_i hc1 hc2
        obtain rfl := (Except.ok.inj h).symm
        obtain ⟨hmo1, hmo2, hd1, _, hhr, hmi, hsec⟩ := hc1
        obtain ⟨hy1, hy2, hdm⟩ := hc2
        exact ⟨hy1, hy2, hmo1, hmo2, hd1, hdm, hhr, hmi, hsec, rfl⟩
      · exact absurd h (by simp)
    · exact absurd h (by simp)

/-- C10: a well-formed timestamp, with or without a '+' and arbitrary trailing
text, parses to a datetime whose first six fields are the parsed ones and
whose microsecond is the weekday of the date (0 = Monday .. 6 = Sunday),
because the slice [:7] of the time struct ends with tm_wday and is passed
positionally into the datetime constructor. -/
theorem C10_to_datetime_weekday (core tail : String) (tm : TmStruct)
    (hplus : core.data.all (fun c => c != '+') = true)
    (hparse : strptime_fmt (pystrip core) = Except.ok tm)
    (hsec : tm.tm_sec ≤ 59) :
    to_datetime (core ++ "+" ++ tail) =
      Except.ok (PyDateTime.mk tm.tm_year tm.tm_mon tm.tm_mday tm.tm_hour tm.tm_min
        tm.tm_sec (pyWeekday tm.tm_year tm.tm_mon tm.tm_mday)) ∧
    to_datetime core =
      Except.ok (PyDateTime.mk tm.tm_year tm.tm_mon tm.tm_mday tm.tm_hour tm.tm_min
        tm.tm_sec (pyWeekday tm.tm_year tm.tm_mon tm.tm_mday)) ∧
    pyWeekday tm.tm_year tm.tm_mon tm.tm_mday < 7 := by
  obtain ⟨hy1, hy2, hmo1, hmo2, hd1, hdm, hhr, hmi, _, hw⟩ := strptime_fmt_ok_inv _ _ hparse
  have hlt : pyWeekday tm.tm_year tm.tm_mon tm.tm_mday < 7 := by
    unfold pyWeekday
    exact Nat.mod_lt _ (by norm_num)
  have hus : tm.tm_wday ≤ 999999 := by
    rw [hw]
    exact Nat.le_of_lt (Nat.lt_of_lt_of_le hlt (by norm_num))
  have hmk : datetime_mk tm.tm_year tm.tm_mon tm.tm_mday tm.tm_hour tm.tm_min tm.tm_sec
      tm.tm_wday =
      Except.ok (PyDateTime.mk tm.tm_year tm.tm_mon tm.tm_mday tm.tm_hour tm.tm_min
        tm.tm_sec (pyWeekday tm.tm_year tm.tm_mon tm.tm_mday)) := by
    unfold datetime_mk
    rw [if_pos ⟨hy1, hy2, hmo1, hmo2, hd1, hdm, hhr, hmi, hsec, hus⟩, hw]
  refine ⟨?_, ?_, hlt⟩
  · unfold to_datetime
    rw [splitPlusHead_cut core tail hplus, hparse]
    exact hmk
  · unfold to_datetime
    rw [splitPlusHead_no_plus core hplus, hparse]
    exact hmk

/-- C10 witness: a real Bitbucket timestamp; 2012-11-09 was a Friday, so the
microsecond field of the result is 4. -/
theorem C10_to_datetime_weekday_witness :
    to_datetime "2012-11-09 13:16:10+00:00" =
      Except.ok (PyDateTime.mk 2012 11 9 13 16 10 4) ∧
    to_datetime "2012-11-09 13:16:10" =
      Except.ok (PyDateTime.mk 2012 11 9 13 16 10 4) := by
  have h := C10_to_datetime_weekday "2012-11-09 13:16:10" "00:00"
    (TmStruct.mk 2012 11 9 13 16 10 4) (by decide) rfl (by decide)
  have e1 : ("2012-11-09 13:16:10" ++ "+" ++ "00:00") = "2012-11-09 13:16:10+00:00" := rfl
  have e2 : pyWeekday 2012 11 9 = 4 := by decide
  rw [e1, e2] at h
  exact ⟨h.1, h.2.1⟩
